import Mathlib

/-!
Verification of the BookfinderAPI core logic (src/main.py) against its
natural-language specification.

Modelling conventions (shallow embedding):
* Python `str` values are modelled as `List Char` (`PyStr`); `str.isdigit`,
  `str.lower`, `str.strip` are modelled on their ASCII behaviour, which is
  the only behaviour the claims and counterexamples exercise.
* Python falsiness of an optional string (`None` or `""`) is `truthy = false`.
* Machine integers are `Nat`/`Int`; Python `%` and `//` on naturals coincide
  with `Nat.mod`/`Nat.div`.
* Fallible code returns `Option`; `validate_and_clean_isbn` returns `none`
  where the endpoint raises its `InvalidIdentifier` (HTTP 400) error.
* Definitions keep the names of the Python functions they embed.
-/

/-- Python strings, modelled as lists of characters. -/
abbrev PyStr := List Char

/-- Python `str.lower` (ASCII behaviour). -/
def pyLower (s : PyStr) : PyStr := s.map Char.toLower

/-- Python `str.isdigit` (ASCII behaviour): nonempty and all decimal digits. -/
def pyIsDigit (s : PyStr) : Bool := !s.isEmpty && s.all Char.isDigit

/-- Python `int(c)` for a single digit character. -/
def digitVal (c : Char) : Nat := c.toNat - 48

/-- Python `str.lstrip()`. -/
def pyStripL (s : PyStr) : PyStr := s.dropWhile Char.isWhitespace

/-- Python `str.rstrip()`. -/
def pyStripR (s : PyStr) : PyStr := (s.reverse.dropWhile Char.isWhitespace).reverse

/-- Python `str.strip()`. -/
def pyStrip (s : PyStr) : PyStr := pyStripR (pyStripL s)

/-- Python truthiness of an `Optional[str]`: `None` and `""` are falsy. -/
def truthy : Option PyStr → Bool
  | none => false
  | some s => !s.isEmpty

/-- Check whether `needle` is a prefix of `hay`. -/
def pyStarts : PyStr → PyStr → Bool
  | [], _ => true
  | _ :: _, [] => false
  | a :: as, b :: bs => a == b && pyStarts as bs

/-- Python contiguous substring test `needle in hay`. -/
def pySub (needle hay : PyStr) : Bool :=
  match hay with
  | [] => needle.isEmpty
  | _ :: t => pyStarts needle hay || pySub needle t

-- ------------------------------------------------------------------
-- Identifier Validator / Converter (src/main.py lines 371-400)
-- ------------------------------------------------------------------

/-- Embeds `_is_valid_isbn10_checksum` (main.py:371-378): length must be 10,
the first nine characters digits, and the weighted sum
`Σ digit[i]·(10−i)` plus the check character ('X' counts as 10) must be
divisible by 11. -/
def _is_valid_isbn10_checksum (isbn : PyStr) : Bool :=
  if isbn.length ≠ 10 || !(pyIsDigit isbn.dropLast) then false
  else
    let total := (isbn.take 9).enum.foldl
      (fun t p => t + digitVal p.2 * (10 - p.1)) 0
    match isbn.getLast? with
    | none => false
    | some c =>
      let cu := c.toUpper
      if cu == 'X' then (total + 10) % 11 == 0
      else if cu.isDigit then (total + digitVal cu) % 11 == 0
      else false

/-- The ISBN-13 weighted sum over the first 12 characters
(`for i in range(12): total += int(isbn[i]) * (1 if i % 2 == 0 else 3)`).
The Python loop indexes the first 12 characters; both call sites pass a
string of length at least 12. -/
def alt13Sum (s : PyStr) : Nat :=
  (s.take 12).enum.foldl
    (fun t p => t + digitVal p.2 * (if p.1 % 2 == 0 then 1 else 3)) 0

/-- Embeds `_is_valid_isbn13_checksum` (main.py:380-387). -/
def _is_valid_isbn13_checksum (isbn : PyStr) : Bool :=
  if isbn.length ≠ 13 || !(pyIsDigit isbn) then false
  else
    let check := (10 - alt13Sum isbn % 10) % 10
    check == digitVal (isbn.getD 12 ' ')

/-- Embeds `_convert_isbn10_to_isbn13` (main.py:389-393): prepend "978" to the
first nine characters, recompute the ISBN-13 check digit, append it
(`str(check_digit)` for a digit 0-9 is `Char.ofNat (48 + d)`). -/
def _convert_isbn10_to_isbn13 (isbn10 : PyStr) : PyStr :=
  let base : PyStr := ['9', '7', '8'] ++ isbn10.dropLast
  let check := (10 - alt13Sum base % 10) % 10
  base ++ [Char.ofNat (48 + check)]

/-- Embeds the cleaning step `re.sub(r"[\s-]+", "", isbn)` of
`validate_and_clean_isbn` (main.py:396): every whitespace or hyphen
character is removed. -/
def cleanIdentifier (isbn : PyStr) : PyStr :=
  isbn.filter (fun c => !(c.isWhitespace || c == '-'))

/-- Embeds `validate_and_clean_isbn` (main.py:395-400); `none` models the
`HTTPException(400, "Invalid ISBN or Identifier.")` (`InvalidIdentifier`). -/
def validate_and_clean_isbn (isbn : PyStr) : Option PyStr :=
  let cleaned := cleanIdentifier isbn
  if cleaned.length == 13 && _is_valid_isbn13_checksum cleaned then some cleaned
  else if cleaned.length == 10 && _is_valid_isbn10_checksum cleaned then
    some (_convert_isbn10_to_isbn13 cleaned)
  else if pyIsDigit cleaned && decide (8 ≤ cleaned.length) then some cleaned
  else none

-- ------------------------------------------------------------------
-- Format Classifier (src/main.py lines 314-319)
-- ------------------------------------------------------------------

/-- Embeds `classify_format` (main.py:314-319). The guard is
`if not page_count`, i.e. Python falsiness, so `some 0` takes the same
branch as `none`. -/
def classify_format (page_count : Option Int) (is_ebook : Bool) : String :=
  match page_count with
  | none => "Unknown Format"
  | some n =>
    if n = 0 then "Unknown Format"
    else if n < 50 then "Short Story"
    else if n < 150 then "Novella"
    else if is_ebook then "eBook"
    else "Novel"

example : cleanIdentifier "978-0306406157".data = "9780306406157".data := by decide
example : _is_valid_isbn10_checksum "0306406152".data = true := by decide
example : _convert_isbn10_to_isbn13 "0306406152".data = "9780306406157".data := by decide
example : _is_valid_isbn13_checksum "9780306406157".data = true := by decide
example : _is_valid_isbn13_checksum "9780000000002".data = true := by decide
example : validate_and_clean_isbn "9780000000001".data = some "9780000000001".data := by decide

-- ------------------------------------------------------------------
-- Theorems: identifier validation and conversion (C3, C4)
-- ------------------------------------------------------------------

theorem digitChar_isDigit {n : Nat} (h : n < 10) :
    (Char.ofNat (48 + n)).isDigit = true := by
  interval_cases n <;> decide

theorem digitVal_digitChar {n : Nat} (h : n < 10) :
    digitVal (Char.ofNat (48 + n)) = n := by
  interval_cases n <;> decide

theorem isbn10_valid_shape {isbn : PyStr}
    (h : _is_valid_isbn10_checksum isbn = true) :
    isbn.length = 10 ∧ pyIsDigit isbn.dropLast = true := by
  by_cases hc : (isbn.length ≠ 10 || !(pyIsDigit isbn.dropLast)) = true
  · rw [_is_valid_isbn10_checksum, if_pos hc] at h
    exact absurd h (by simp)
  · simp only [Bool.or_eq_true, decide_eq_true_eq, Bool.not_eq_true',
      not_or, Bool.not_eq_false] at hc
    exact ⟨by omega, hc.2⟩

/-- C4: for every 10-character string that passes the ISBN-10 checksum, the
converted output — "978" prepended to the first 9 digits with a freshly
computed check digit appended — is a 13-digit string that itself passes the
ISBN-13 checksum (round-trip conversion correctness). -/
theorem isbn10_to_isbn13_roundtrip (isbn : PyStr)
    (h : _is_valid_isbn10_checksum isbn = true) :
    (_convert_isbn10_to_isbn13 isbn).length = 13 ∧
    pyIsDigit (_convert_isbn10_to_isbn13 isbn) = true ∧
    _is_valid_isbn13_checksum (_convert_isbn10_to_isbn13 isbn) = true := by
  obtain ⟨hlen, hdig⟩ := isbn10_valid_shape h
  have hdrop : isbn.dropLast.length = 9 := by
    rw [List.length_dropLast, hlen]
  set base : PyStr := ['9', '7', '8'] ++ isbn.dropLast with hbase
  have hbl : base.length = 12 := by
    simp [hbase, hdrop]
  set check := (10 - alt13Sum base % 10) % 10 with hcheckdef
  have hck : check < 10 := Nat.mod_lt _ (by norm_num)
  have hconv : _convert_isbn10_to_isbn13 isbn = base ++ [Char.ofNat (48 + check)] := rfl
  have hclen : (_convert_isbn10_to_isbn13 isbn).length = 13 := by
    rw [hconv]; simp [hbl]
  have hall : isbn.dropLast.all Char.isDigit = true := by
    have hb := hdig
    unfold pyIsDigit at hb
    exact ((Bool.and_eq_true _ _).mp hb).2
  have hcdig : pyIsDigit (_convert_isbn10_to_isbn13 isbn) = true := by
    rw [hconv]
    simp [pyIsDigit, hbase, List.all_append, hall, digitChar_isDigit hck]
  refine ⟨hclen, hcdig, ?_⟩
  rw [hconv]
  rw [_is_valid_isbn13_checksum, if_neg]
  · have htk1 : (base ++ [Char.ofNat (48 + check)]).take 12 = base := by
      rw [show (12 : Nat) = base.length from hbl.symm]
      exact List.take_left _ _
    have htk2 : base.take 12 = base :=
      List.take_of_length_le (le_of_eq hbl)
    have hsum : alt13Sum (base ++ [Char.ofNat (48 + check)]) = alt13Sum base := by
      unfold alt13Sum
      rw [htk1, htk2]
    have hget : (base ++ [Char.ofNat (48 + check)]).getD 12 ' ' = Char.ofNat (48 + check) := by
      rw [show (12 : Nat) = base.length from hbl.symm]
      rw [List.getD_append_right _ _ _ _ (le_refl _)]
      simp
    rw [hsum, hget, digitVal_digitChar hck]
    simp
  · have h13 : (base ++ [Char.ofNat (48 + check)]).length = 13 := by simp [hbl]
    rw [hconv] at hcdig
    simp [h13, hcdig]

theorem isbn10_to_isbn13_roundtrip_witness :
    _is_valid_isbn10_checksum "0306406152".data = true ∧
    (_convert_isbn10_to_isbn13 "0306406152".data).length = 13 ∧
    pyIsDigit (_convert_isbn10_to_isbn13 "0306406152".data) = true ∧
    _is_valid_isbn13_checksum (_convert_isbn10_to_isbn13 "0306406152".data) = true :=
  ⟨by decide, isbn10_to_isbn13_roundtrip _ (by decide)⟩

/-- C3 counterexample: "9780000000001" is a 13-digit string that fails the
ISBN-13 checksum, yet `validate_and_clean_isbn` returns it unchanged as an
alternate identifier instead of failing with `InvalidIdentifier` (the
fall-through accepts any all-digit string of length at least 8, with no
upper bound of 12). -/
theorem validate_and_clean_isbn_counterexample :
    validate_and_clean_isbn "9780000000001".data = some "9780000000001".data ∧
    _is_valid_isbn13_checksum "9780000000001".data = false ∧
    ("9780000000001".data).length = 13 := by
  refine ⟨by decide, by decide, by decide⟩

/-- C3 (amended): the validator strips whitespace and hyphens and then:
returns the string unchanged if it is 13 digits with a valid ISBN-13
checksum; returns the ISBN-13 conversion if it is a valid 10-character
ISBN-10; otherwise returns the cleaned string as an alternate identifier if
and only if it is all digits and at least 8 characters long (no upper
bound — in particular an all-digit string of 13 or more digits failing the
ISBN-13 checksum is accepted as an alternate identifier); in every other
case it fails with `InvalidIdentifier`. -/
theorem validate_and_clean_isbn_cases (isbn : PyStr) :
    ((cleanIdentifier isbn).length = 13 →
      _is_valid_isbn13_checksum (cleanIdentifier isbn) = true →
      validate_and_clean_isbn isbn = some (cleanIdentifier isbn)) ∧
    ((cleanIdentifier isbn).length = 10 →
      _is_valid_isbn10_checksum (cleanIdentifier isbn) = true →
      validate_and_clean_isbn isbn = some (_convert_isbn10_to_isbn13 (cleanIdentifier isbn))) ∧
    (¬((cleanIdentifier isbn).length = 13 ∧ _is_valid_isbn13_checksum (cleanIdentifier isbn) = true) →
     ¬((cleanIdentifier isbn).length = 10 ∧ _is_valid_isbn10_checksum (cleanIdentifier isbn) = true) →
     (validate_and_clean_isbn isbn = none ↔
       ¬(pyIsDigit (cleanIdentifier isbn) = true ∧ 8 ≤ (cleanIdentifier isbn).length))) := by
  refine ⟨?_, ?_, ?_⟩
  · intro hl hv
    simp [validate_and_clean_isbn, hl, hv]
  · intro hl hv
    simp [validate_and_clean_isbn, hl, hv]
  · intro h13 h10
    simp only [validate_and_clean_isbn]
    rw [if_neg, if_neg]
    · split_ifs with h
      · simp only [Bool.and_eq_true, decide_eq_true_eq] at h
        simp [h]
      · simp only [Bool.and_eq_true, decide_eq_true_eq] at h
        simp [h]
    · simp only [Bool.and_eq_true, beq_iff_eq]
      exact h10
    · simp only [Bool.and_eq_true, beq_iff_eq]
      exact h13

theorem validate_and_clean_isbn_cases_witness :
    validate_and_clean_isbn "11111111111111".data ≠ none := fun hn =>
  (((validate_and_clean_isbn_cases "11111111111111".data).2.2
      (by decide) (by decide)).mp hn) ⟨by decide, by decide⟩

-- ------------------------------------------------------------------
-- Theorem: format classifier (C10)
-- ------------------------------------------------------------------

/-- C10: the format classifier treats a pageCount of 0 exactly like an
absent pageCount: for every isEbook value, `classify_format (some 0)` is
"Unknown Format" (the same as `classify_format none`) and never
"Short Story", because `if not page_count` tests falsiness. -/
theorem classify_format_zero_pages (is_ebook : Bool) :
    classify_format (some 0) is_ebook = "Unknown Format" ∧
    classify_format (some 0) is_ebook = classify_format none is_ebook ∧
    classify_format (some 0) is_ebook ≠ "Short Story" := by
  refine ⟨rfl, rfl, ?_⟩
  intro hcontra
  exact absurd hcontra (by simp [classify_format])

-- ------------------------------------------------------------------
-- Sorted-set helper: Python `sorted(list(set(xs)))`
-- ------------------------------------------------------------------

/-- Insert into a sorted list (helper for modelling Python `sorted`). -/
def insertSorted (le : α → α → Bool) (x : α) : List α → List α
  | [] => [x]
  | y :: ys => if le x y then x :: y :: ys else y :: insertSorted le x ys

/-- Insertion sort, modelling Python `sorted` (only the resulting set and
sortedness matter to the claims). -/
def sortBy (le : α → α → Bool) (l : List α) : List α :=
  l.foldr (insertSorted le) []

/-- Remove duplicates keeping first occurrences, modelling Python `set`
construction followed by listing. -/
def dedupKeepFirst [DecidableEq α] : List α → List α
  | [] => []
  | x :: xs => x :: (dedupKeepFirst xs).filter (fun y => y ≠ x)

/-- Python string comparison (lexicographic by code point). -/
def pyStrLe : PyStr → PyStr → Bool
  | [], _ => true
  | _ :: _, [] => false
  | a :: as, b :: bs => if a = b then pyStrLe as bs else decide (a < b)

/-- Python `sorted(list(set(l)))` for a list of strings. -/
def sortedSet (l : List PyStr) : List PyStr := sortBy pyStrLe (dedupKeepFirst l)

theorem mem_insertSorted (le : α → α → Bool) (x a : α) (l : List α) :
    a ∈ insertSorted le x l ↔ a = x ∨ a ∈ l := by
  induction l with
  | nil => simp [insertSorted]
  | cons y ys ih =>
    by_cases h : le x y = true
    · rw [insertSorted, if_pos h]
      simp [List.mem_cons]
    · rw [insertSorted, if_neg h]
      simp only [List.mem_cons, ih]
      tauto

theorem mem_sortBy (le : α → α → Bool) (a : α) (l : List α) :
    a ∈ sortBy le l ↔ a ∈ l := by
  induction l with
  | nil => simp [sortBy]
  | cons y ys ih =>
    simp only [sortBy, List.foldr_cons] at *
    rw [mem_insertSorted]
    simp only [List.mem_cons, ih]

theorem mem_dedupKeepFirst [DecidableEq α] (a : α) (l : List α) :
    a ∈ dedupKeepFirst l ↔ a ∈ l := by
  induction l with
  | nil => simp [dedupKeepFirst]
  | cons x xs ih =>
    rw [dedupKeepFirst]
    simp only [List.mem_cons, List.mem_filter, ih]
    by_cases hax : a = x
    · simp [hax]
    · simp [hax]

theorem mem_sortedSet (a : PyStr) (l : List PyStr) :
    a ∈ sortedSet l ↔ a ∈ l := by
  rw [sortedSet, mem_sortBy, mem_dedupKeepFirst]

-- ------------------------------------------------------------------
-- Record models (subset of the Pydantic models actually read by the
-- embedded logic)
-- ------------------------------------------------------------------

/-- Author entry; only `name` is read by the embedded logic. -/
structure AuthorItem where
  name : PyStr
deriving DecidableEq

/-- The fields of `SearchResultItem` (main.py:192-210) that the embedded
merge, scoring, identity and release-gate logic read. -/
structure SearchResultItem where
  title : PyStr
  subtitle : Option PyStr := none
  authors : List AuthorItem := []
  isbn_13 : Option PyStr := none
  isbn_10 : Option PyStr := none
  publisher : Option PyStr := none
  published_date : Option PyStr := none
  categories : List PyStr := []
  open_library_work_id : Option PyStr := none
  cover_url : Option PyStr := none
  format_tag : Option PyStr := none
  description : Option PyStr := none
  data_sources : List PyStr := []
  lccn : List PyStr := []
deriving DecidableEq

/-- The fields of `MergedBook` (main.py:164-190) that `_merge_loc_data`
reads or writes. -/
structure MergedBook where
  title : PyStr
  description : Option PyStr := none
  publisher : Option PyStr := none
  published_date : Option PyStr := none
  subjects : List PyStr := []
  lccn : List PyStr := []
  data_sources : List PyStr := []
deriving DecidableEq

/-- The LOC payload dict consumed by `_merge_loc_data`; a missing key is
`none` / `[]` (`.get` returns `None`). -/
structure LocData where
  title : Option PyStr := none
  description : Option PyStr := none
  published_date : Option PyStr := none
  publisher : Option PyStr := none
  subjects : List PyStr := []
  lccn : List PyStr := []
deriving DecidableEq

-- ------------------------------------------------------------------
-- Identity Resolver (src/main.py lines 528-537)
-- ------------------------------------------------------------------

/-- Embeds `get_fallback_key` (main.py:528-530): `lower().strip()` on the
title (and first author name), with no collapsing of internal whitespace. -/
def get_fallback_key (item : SearchResultItem) : PyStr :=
  if item.authors = [] then
    "noauth-".data ++ pyStrip (pyLower item.title)
  else
    pyStrip (pyLower item.title) ++ ['|'] ++
      pyStrip (pyLower (item.authors.headD ⟨[]⟩).name)

/-- Embeds `key = item.isbn_13 or get_fallback_key(item)` (main.py:533,537):
the ISBN-13 when truthy, else the fallback key. -/
def mergeKey (item : SearchResultItem) : PyStr :=
  match item.isbn_13 with
  | some s => if s.isEmpty then get_fallback_key item else s
  | none => get_fallback_key item

-- ------------------------------------------------------------------
-- Relevance Scorer (src/main.py lines 561-595)
-- ------------------------------------------------------------------

/-- Embeds `norm` inside `score_book` (main.py:570):
`re.sub(r'[^a-z0-9]', '', str(s).lower())`. -/
def normAlnum (s : PyStr) : PyStr :=
  (pyLower s).filter (fun c => ('a' ≤ c && c ≤ 'z') || c.isDigit)

/-- Embeds `score_book` (main.py:561-595): +10 cover, +5 isbn13, +3 LOC,
+1 date; with a query: +500 exact / +20 substring title match, +600 exact /
+100 substring author match per author, +200 indie rescue (exact title
match with no cover). -/
def score_book (query : PyStr) (book : SearchResultItem) : Nat :=
  let base :=
    (if truthy book.cover_url then 10 else 0) +
    (if truthy book.isbn_13 then 5 else 0) +
    (if "Library of Congress".data ∈ book.data_sources then 3 else 0) +
    (if truthy book.published_date then 1 else 0)
  if query = [] then base
  else
    let q_clean := normAlnum query
    let titleBoost :=
      if book.title = [] then 0
      else
        let t_clean := normAlnum book.title
        if q_clean = t_clean then 500
        else if pySub q_clean t_clean && decide (5 < q_clean.length) then 20
        else 0
    let authorBoost := book.authors.foldl (fun acc author =>
        let a_clean := normAlnum author.name
        if q_clean = a_clean then acc + 600
        else if pySub q_clean a_clean && decide (4 < q_clean.length) then acc + 100
        else acc) 0
    let indie :=
      if book.title ≠ [] ∧ truthy book.cover_url = false then
        (if normAlnum query = normAlnum book.title then 200 else 0)
      else 0
    base + titleBoost + authorBoost + indie

-- ------------------------------------------------------------------
-- Field mergers (src/main.py lines 536-557 and 779-806)
-- ------------------------------------------------------------------

/-- Statement `if not existing.open_library_work_id: ...` (main.py:541). -/
def olWorkIdStep (item existing : SearchResultItem) : SearchResultItem :=
  if truthy existing.open_library_work_id = false then
    { existing with open_library_work_id := item.open_library_work_id }
  else existing

/-- Statement `if not existing.authors and item.authors: ...` (main.py:542). -/
def olAuthorsStep (item e : SearchResultItem) : SearchResultItem :=
  if e.authors = [] ∧ item.authors ≠ [] then { e with authors := item.authors } else e

/-- Statements appending the "Open Library" attribution (main.py:543-544). -/
def olAttributionStep (e : SearchResultItem) : SearchResultItem :=
  if "Open Library".data ∈ e.data_sources then e
  else { e with data_sources := e.data_sources ++ ["Open Library".data] }

/-- Embeds the Open Library branch of `_merge_and_deduplicate_results`
(main.py:539-544) as the sequence of its three mutations: when the key
already exists, only fill `open_library_work_id`, fill an empty author
list, and append the "Open Library" attribution. -/
def mergeOLInto (existing item : SearchResultItem) : SearchResultItem :=
  olAttributionStep (olAuthorsStep item (olWorkIdStep item existing))

/-- Statements appending the "Library of Congress" attribution
(main.py:553-554). -/
def locAttribItemStep (e : SearchResultItem) : SearchResultItem :=
  if "Library of Congress".data ∈ e.data_sources then e
  else { e with data_sources := e.data_sources ++ ["Library of Congress".data] }

/-- Statement `existing.format_tag = "Primary Source"` (main.py:555). -/
def locFormatTagStep (e : SearchResultItem) : SearchResultItem :=
  { e with format_tag := some "Primary Source".data }

/-- Statement `if item.lccn and not existing.lccn: ...` (main.py:556-557). -/
def locLccnFillStep (item e : SearchResultItem) : SearchResultItem :=
  if item.lccn ≠ [] ∧ e.lccn = [] then { e with lccn := item.lccn } else e

/-- Embeds the Library of Congress branch of
`_merge_and_deduplicate_results` (main.py:551-557) as the sequence of its
three mutations: append attribution, force `format_tag` to
"Primary Source", fill an empty `lccn`. -/
def mergeLOCInto (existing item : SearchResultItem) : SearchResultItem :=
  locLccnFillStep item (locFormatTagStep (locAttribItemStep existing))

/-- Statement block for the title fix of `_merge_loc_data`
(main.py:784-785). -/
def locTitleStep (ld : LocData) (b : MergedBook) : MergedBook :=
  if b.title = "Title Not Found".data ∧ truthy ld.title then
    { b with title := ld.title.getD [] }
  else b

/-- Statement block for the description fill of `_merge_loc_data`
(main.py:787-788). -/
def locDescriptionStep (ld : LocData) (b : MergedBook) : MergedBook :=
  if truthy b.description = false ∧ truthy ld.description then
    { b with description := ld.description }
  else b

/-- Statement block for the unconditional publishedDate overwrite of
`_merge_loc_data` (main.py:790-791). -/
def locDateStep (ld : LocData) (b : MergedBook) : MergedBook :=
  if truthy ld.published_date then { b with published_date := ld.published_date } else b

/-- Statement block for the subject-set union of `_merge_loc_data`
(main.py:792-794). -/
def locSubjectsStep (ld : LocData) (b : MergedBook) : MergedBook :=
  if ld.subjects ≠ [] then
    { b with subjects := sortedSet (b.subjects ++ ld.subjects) }
  else b

/-- Statement block for the publisher fill of `_merge_loc_data`
(main.py:795-796). -/
def locPublisherStep (ld : LocData) (b : MergedBook) : MergedBook :=
  if truthy b.publisher = false ∧ truthy ld.publisher then
    { b with publisher := ld.publisher }
  else b

/-- Statement block for the lccn mapping of `_merge_loc_data`
(main.py:799-800). -/
def locLccnStep (ld : LocData) (b : MergedBook) : MergedBook :=
  if ld.lccn ≠ [] then { b with lccn := ld.lccn } else b

/-- Statement block for the attribution append of `_merge_loc_data`
(main.py:803-804). -/
def locAttributionStep (b : MergedBook) : MergedBook :=
  if "Library of Congress".data ∈ b.data_sources then b
  else { b with data_sources := b.data_sources ++ ["Library of Congress".data] }

/-- Embeds `_merge_loc_data` (main.py:779-806) as the sequence of its
statement blocks in source order. `none` models a falsy (empty)
`loc_data` dict. Note the unconditional
`book.published_date = loc_data["published_date"]` overwrite. -/
def _merge_loc_data (book : MergedBook) (loc_data : Option LocData) : MergedBook :=
  match loc_data with
  | none => book
  | some ld =>
    locAttributionStep (locLccnStep ld (locPublisherStep ld (locSubjectsStep ld
      (locDateStep ld (locDescriptionStep ld (locTitleStep ld book))))))

example :
    mergeKey { title := "Foo".data, isbn_13 := some "9780000000002".data } =
      "9780000000002".data := by decide
example :
    get_fallback_key { title := [' ', 'A', 'b', ' '] } = "noauth-ab".data := by decide
example :
    score_book "dune".data { title := "Dune".data } = 700 := by decide

-- ------------------------------------------------------------------
-- Theorems: identity resolver (C6)
-- ------------------------------------------------------------------

/-- C6 counterexample: two records with no ISBN and no authors whose titles
differ only in a run of internal whitespace ("foo  bar" vs "foo bar")
receive different identity keys, because `get_fallback_key` only lowercases
and trims — it never collapses internal whitespace. -/
theorem identity_key_counterexample :
    mergeKey { title := ['f','o','o',' ',' ','b','a','r'], authors := [], isbn_13 := none } ≠
    mergeKey { title := ['f','o','o',' ','b','a','r'], authors := [], isbn_13 := none } := by
  decide

/-- C6 (amended): the identity resolver is pure and deterministic; any two
records with the same truthy ISBN-13 receive the same key regardless of
other fields; without a truthy ISBN-13, a record with at least one author
receives `lower-trim(title) + "|" + lower-trim(firstAuthor.name)` and one
with no authors receives `"noauth-" + lower-trim(title)`, where the
normalisation trims outer whitespace and lowercases but does NOT collapse
internal whitespace — so keys agree for titles differing only in letter
case or in leading/trailing whitespace, but not for titles differing in
runs of internal whitespace. -/
theorem identity_key_amended (r₁ r₂ r : SearchResultItem) (s t₁ t₂ : PyStr) :
    (s ≠ [] → r₁.isbn_13 = some s → r₂.isbn_13 = some s →
      mergeKey r₁ = mergeKey r₂) ∧
    (truthy r.isbn_13 = false → r.authors ≠ [] →
      mergeKey r = pyStrip (pyLower r.title) ++ ['|'] ++
        pyStrip (pyLower (r.authors.headD ⟨[]⟩).name)) ∧
    (truthy r.isbn_13 = false → r.authors = [] →
      mergeKey r = "noauth-".data ++ pyStrip (pyLower r.title)) ∧
    (pyStrip (pyLower t₁) = pyStrip (pyLower t₂) →
      get_fallback_key { r with title := t₁ } =
        get_fallback_key { r with title := t₂ }) := by
  refine ⟨?_, ?_, ?_, ?_⟩
  · intro hs h1 h2
    have hse : s.isEmpty = false := by
      cases s with
      | nil => exact absurd rfl hs
      | cons c cs => rfl
    rw [mergeKey, mergeKey, h1, h2]
    show (if s.isEmpty = true then get_fallback_key r₁ else s) =
      (if s.isEmpty = true then get_fallback_key r₂ else s)
    rw [hse]
    simp
  · intro hfalse hauth
    rw [mergeKey.eq_def]
    match hi : r.isbn_13 with
    | none => rw [get_fallback_key, if_neg hauth]
    | some v =>
      rw [hi] at hfalse
      have hv : v.isEmpty = true := by simpa [truthy] using hfalse
      show (if v.isEmpty = true then get_fallback_key r else v) = _
      rw [if_pos hv, get_fallback_key, if_neg hauth]
  · intro hfalse hauth
    rw [mergeKey.eq_def]
    match hi : r.isbn_13 with
    | none => rw [get_fallback_key, if_pos hauth]
    | some v =>
      rw [hi] at hfalse
      have hv : v.isEmpty = true := by simpa [truthy] using hfalse
      show (if v.isEmpty = true then get_fallback_key r else v) = _
      rw [if_pos hv, get_fallback_key, if_pos hauth]
  · intro ht
    rw [get_fallback_key, get_fallback_key]
    simp only [ht]

theorem identity_key_amended_witness :
    mergeKey { title := "ZZZ".data, isbn_13 := some "9780000000002".data } =
    mergeKey { title := "Foo".data, isbn_13 := some "9780000000002".data } :=
  (identity_key_amended
      { title := "ZZZ".data, isbn_13 := some "9780000000002".data }
      { title := "Foo".data, isbn_13 := some "9780000000002".data }
      { title := [] } "9780000000002".data [] []).1
    (by decide) rfl rfl

-- ------------------------------------------------------------------
-- Theorems: relevance scorer (C2)
-- ------------------------------------------------------------------

/-- A record whose normalized title exactly matches the query "dune",
with no cover. -/
def duneNoCover : SearchResultItem := { title := "Dune".data }

/-- The same record with a cover URL added. -/
def duneWithCover : SearchResultItem :=
  { duneNoCover with cover_url := some "http://x".data }

/-- C2 counterexample: adding a coverUrl to an otherwise-identical record
does NOT increase its score by exactly +10 when the normalized query
exactly matches the normalized title: with query "dune", the coverless
record scores 500 (exact title) + 200 (indie rescue) = 700, while the
same record with a cover scores 10 + 500 = 510 — a net decrease of 190,
so the score is not monotonic in the cover signal. -/
theorem score_book_counterexample :
    score_book "dune".data duneNoCover = 700 ∧
    score_book "dune".data duneWithCover = 510 ∧
    score_book "dune".data duneWithCover ≠ score_book "dune".data duneNoCover + 10 := by
  refine ⟨by decide, by decide, by decide⟩

/-- One step of the per-author boost accumulation of `score_book`
(main.py:582-588) leaves the accumulator unchanged on a list of authors
none of which matches the query exactly or as a long-enough substring. -/
theorem score_author_fold_const (q : PyStr) (l : List AuthorItem)
    (h : ∀ x ∈ l, ¬(normAlnum q = normAlnum x.name) ∧
      (pySub (normAlnum q) (normAlnum x.name) &&
        decide (4 < (normAlnum q).length)) = false) :
    ∀ init : Nat, l.foldl (fun acc author =>
        if normAlnum q = normAlnum author.name then acc + 600
        else if pySub (normAlnum q) (normAlnum author.name) &&
            decide (4 < (normAlnum q).length) then acc + 100
        else acc) init = init := by
  induction l with
  | nil => intro init; rfl
  | cons x xs ih =>
    intro init
    rw [List.foldl_cons]
    have hx := h x (List.mem_cons_self x xs)
    rw [if_neg hx.1, if_neg (by simp [hx.2])]
    exact ih (fun y hy => h y (List.mem_cons_of_mem _ hy)) init

/-- C2 (amended): the score is monotonic in every listed signal except the
cover signal — removing the isbn13, archival-source or publishedDate
signal never increases the score, replacing the title by one with neither
an exact nor a substring match never increases the score, and replacing
the author list by one with no exact or substring matches never increases
the score; adding a coverUrl to an otherwise-identical record increases
its score by exactly +10 provided the query is empty, the title is empty,
or the normalized query differs from the normalized title; when the query
exactly matches the title of a coverless record, adding a cover instead
forfeits the +200 indie rescue (net −190). Scores are a function of the
single record, so the relative order of two other records is unaffected
either way. -/
theorem score_book_amended (query c : PyStr) (b : SearchResultItem) :
    (truthy b.cover_url = false → c ≠ [] →
      (query = [] ∨ b.title = [] ∨ normAlnum query ≠ normAlnum b.title) →
      score_book query { b with cover_url := some c } = score_book query b + 10) ∧
    (score_book query { b with isbn_13 := none } ≤ score_book query b) ∧
    (score_book query { b with published_date := none } ≤ score_book query b) ∧
    (∀ ds : List PyStr, "Library of Congress".data ∉ ds →
      score_book query { b with data_sources := ds } ≤ score_book query b) ∧
    (∀ t' : PyStr, normAlnum query ≠ normAlnum t' →
      (pySub (normAlnum query) (normAlnum t') &&
        decide (5 < (normAlnum query).length)) = false →
      score_book query { b with title := t' } ≤ score_book query b) ∧
    (∀ a' : List AuthorItem,
      (∀ x ∈ a', ¬(normAlnum query = normAlnum x.name) ∧
        (pySub (normAlnum query) (normAlnum x.name) &&
          decide (4 < (normAlnum query).length)) = false) →
      score_book query { b with authors := a' } ≤ score_book query b) := by
  refine ⟨?_, ?_, ?_, ?_, ?_, ?_⟩
  · intro hcov hc hdisj
    have hct : truthy (some c) = true := by
      cases c with
      | nil => exact absurd rfl hc
      | cons x xs => rfl
    by_cases hq : query = []
    · simp only [score_book, hq, if_pos rfl]
      simp [hct, hcov]
      omega
    · rcases hdisj with hq' | htitle | hnorm
      · exact absurd hq' hq
      · simp only [score_book, if_neg hq]
        simp [hct, hcov, htitle]
        omega
      · simp only [score_book, if_neg hq]
        simp [hct, hcov, hnorm]
        split_ifs <;> omega
  · simp only [score_book]
    by_cases hq : query = [] <;> simp [hq, truthy]
  · simp only [score_book]
    by_cases hq : query = [] <;> simp [hq, truthy]
  · intro ds hds
    simp only [score_book]
    by_cases hq : query = [] <;> simp [hq, hds]
  · intro t' htm hsub
    by_cases hq : query = []
    · simp [score_book, hq]
    · simp only [score_book, if_neg hq]
      simp [htm, hsub]
      split_ifs <;> omega
  · intro a' ha
    by_cases hq : query = []
    · simp [score_book, hq]
    · have hz := score_author_fold_const query a' ha 0
      simp only [score_book, if_neg hq]
      simp
      simp at hz
      rw [hz]
      exact Nat.zero_le _

theorem score_book_amended_witness :
    score_book "abc".data { duneNoCover with cover_url := some "http://x".data } =
      score_book "abc".data duneNoCover + 10 ∧
    score_book "abc".data { duneNoCover with title := "zzz".data } ≤
      score_book "abc".data duneNoCover ∧
    score_book "abc".data { duneNoCover with authors := [⟨"John Doe".data⟩] } ≤
      score_book "abc".data duneNoCover :=
  ⟨(score_book_amended "abc".data "http://x".data duneNoCover).1
      (by decide) (by decide) (Or.inr (Or.inr (by decide))),
   (score_book_amended "abc".data [] duneNoCover).2.2.2.2.1 "zzz".data
      (by decide) (by decide),
   (score_book_amended "abc".data [] duneNoCover).2.2.2.2.2 [⟨"John Doe".data⟩]
      (by decide)⟩

-- ------------------------------------------------------------------
-- Theorems: field merger fill-only semantics (C1)
-- ------------------------------------------------------------------

/-- C1 counterexample: a canonical record whose publishedDate is already
filled (from the higher-priority commercial/open catalogs) has it
OVERWRITTEN by the archival (Library of Congress) record's different
non-empty publishedDate in `_merge_loc_data` — the fill-only invariant
fails for the publishedDate field. -/
theorem merge_fill_only_counterexample :
    ((_merge_loc_data
        { title := "A".data, description := some "d".data,
          published_date := some "2020".data }
        (some { published_date := some "1999".data })).published_date
      = some "1999".data) ∧
    truthy (some "2020".data) = true ∧
    some "1999".data ≠ some "2020".data := by
  refine ⟨by decide, by decide, by decide⟩

/-- C1 (amended): in the archival merge (`_merge_loc_data`) the
description and publisher fields are fill-only (a truthy canonical value
is never overwritten) and the title is only replaced when it is the
"Title Not Found" sentinel, but a truthy archival publishedDate
unconditionally overwrites the canonical publishedDate; in the search-path
merge, lower-priority records never modify the canonical record's scalar
fields at all — the open-catalog branch only fills the work id and an
empty author list, and the archival branch only appends attribution,
forces the format tag and fills an empty lccn. -/
theorem merge_fill_only_amended (book : MergedBook) (ld : LocData)
    (g item : SearchResultItem) :
    (truthy book.description = true →
      (_merge_loc_data book (some ld)).description = book.description) ∧
    (truthy book.publisher = true →
      (_merge_loc_data book (some ld)).publisher = book.publisher) ∧
    (book.title ≠ "Title Not Found".data →
      (_merge_loc_data book (some ld)).title = book.title) ∧
    (truthy ld.published_date = true →
      (_merge_loc_data book (some ld)).published_date = ld.published_date) ∧
    ((mergeOLInto g item).title = g.title ∧
     (mergeOLInto g item).subtitle = g.subtitle ∧
     (mergeOLInto g item).publisher = g.publisher ∧
     (mergeOLInto g item).published_date = g.published_date ∧
     (mergeOLInto g item).cover_url = g.cover_url ∧
     (mergeOLInto g item).description = g.description ∧
     (mergeOLInto g item).isbn_13 = g.isbn_13 ∧
     (mergeOLInto g item).categories = g.categories) ∧
    ((mergeLOCInto g item).title = g.title ∧
     (mergeLOCInto g item).subtitle = g.subtitle ∧
     (mergeLOCInto g item).publisher = g.publisher ∧
     (mergeLOCInto g item).published_date = g.published_date ∧
     (mergeLOCInto g item).cover_url = g.cover_url ∧
     (mergeLOCInto g item).description = g.description ∧
     (mergeLOCInto g item).isbn_13 = g.isbn_13 ∧
     (mergeLOCInto g item).categories = g.categories) := by
  refine ⟨?_, ?_, ?_, ?_, ?_, ?_⟩
  · intro hd
    simp only [_merge_loc_data, locAttributionStep, locLccnStep, locPublisherStep,
      locSubjectsStep, locDateStep,
      apply_ite MergedBook.description, ite_self]
    rw [locDescriptionStep]
    have : truthy (locTitleStep ld book).description = truthy book.description := by
      simp only [locTitleStep, apply_ite MergedBook.description, ite_self]
    rw [if_neg (by simp [this, hd])]
    simp only [locTitleStep, apply_ite MergedBook.description, ite_self]
  · intro hp
    simp only [_merge_loc_data, locAttributionStep, locLccnStep,
      apply_ite MergedBook.publisher, ite_self]
    rw [locPublisherStep]
    have : truthy (locSubjectsStep ld (locDateStep ld (locDescriptionStep ld
        (locTitleStep ld book)))).publisher = truthy book.publisher := by
      simp only [locSubjectsStep, locDateStep, locDescriptionStep, locTitleStep,
        apply_ite MergedBook.publisher, ite_self]
    rw [if_neg (by simp [this, hp])]
    simp only [locSubjectsStep, locDateStep, locDescriptionStep, locTitleStep,
      apply_ite MergedBook.publisher, ite_self]
  · intro ht
    simp only [_merge_loc_data, locAttributionStep, locLccnStep, locPublisherStep,
      locSubjectsStep, locDateStep, locDescriptionStep,
      apply_ite MergedBook.title, ite_self]
    rw [locTitleStep, if_neg (by simp [ht])]
  · intro hpd
    simp only [_merge_loc_data, locAttributionStep, locLccnStep, locPublisherStep,
      locSubjectsStep,
      apply_ite MergedBook.published_date, ite_self]
    rw [locDateStep, if_pos hpd]
  · simp only [mergeOLInto, olAttributionStep, olAuthorsStep, olWorkIdStep,
      apply_ite SearchResultItem.title, apply_ite SearchResultItem.subtitle,
      apply_ite SearchResultItem.publisher, apply_ite SearchResultItem.published_date,
      apply_ite SearchResultItem.cover_url, apply_ite SearchResultItem.description,
      apply_ite SearchResultItem.isbn_13, apply_ite SearchResultItem.categories,
      ite_self]
    exact ⟨trivial, trivial, trivial, trivial, trivial, trivial, trivial, trivial⟩
  · simp only [mergeLOCInto, locLccnFillStep, locFormatTagStep, locAttribItemStep,
      apply_ite SearchResultItem.title, apply_ite SearchResultItem.subtitle,
      apply_ite SearchResultItem.publisher, apply_ite SearchResultItem.published_date,
      apply_ite SearchResultItem.cover_url, apply_ite SearchResultItem.description,
      apply_ite SearchResultItem.isbn_13, apply_ite SearchResultItem.categories,
      ite_self]
    exact ⟨trivial, trivial, trivial, trivial, trivial, trivial, trivial, trivial⟩

theorem merge_fill_only_amended_witness :
    (_merge_loc_data
        { title := "A".data, description := some "keep".data }
        (some { description := some "loc".data })).description
      = some "keep".data :=
  (merge_fill_only_amended
      { title := "A".data, description := some "keep".data }
      { description := some "loc".data }
      { title := [] } { title := [] }).1 (by decide)

-- ------------------------------------------------------------------
-- Category Normalizer (src/main.py lines 345-364)
-- ------------------------------------------------------------------

/-- Raw category entries as received by `_process_rich_categories`
(main.py:350-353): plain strings, `{name: ...}` objects, or anything
else (skipped). -/
inductive RawCat where
  | str (s : PyStr)
  | obj (name : Option PyStr)
  | other
deriving DecidableEq

/-- main.py:351-353: a dict contributes `cat.get("name", "")`, a string
contributes itself, anything else is skipped. -/
def catStr : RawCat → Option PyStr
  | .str s => some s
  | .obj name => some (name.getD [])
  | .other => none

/-- Worker for `re.split(r'[\/]+|--', cat_str)` (main.py:356): a run of
slashes or a double hyphen separates parts; `cur` is the reversed
accumulator of the current part. Structural recursion on `fuel`, which is
at least the remaining string length at every call (each step consumes at
least one character), keeping the function kernel-computable. -/
def splitCatsGo : Nat → List Char → List Char → List PyStr
  | 0, l, cur => [cur.reverse ++ l]
  | _ + 1, [], cur => [cur.reverse]
  | fuel + 1, c :: rest, cur =>
    if c = '/' then
      cur.reverse :: splitCatsGo fuel (rest.dropWhile (fun x => x = '/')) []
    else if c = '-' ∧ rest.head? = some '-' then
      cur.reverse :: splitCatsGo fuel rest.tail []
    else splitCatsGo fuel rest (c :: cur)

/-- `re.split(r'[\/]+|--', s)` (main.py:356). -/
def splitCats (s : PyStr) : List PyStr := splitCatsGo s.length s []

/-- The stop-word set of `_process_rich_categories` (main.py:348). -/
def stop_words : List PyStr :=
  ["general".data, "electronic books".data, "books".data,
   "juvenile fiction".data, "young adult fiction".data]

/-- The per-part cleaning of `_process_rich_categories` (main.py:358-362):
strip, drop empty, drop stop words. -/
def cleanPart (part : PyStr) : Option PyStr :=
  let clean := pyStrip part
  if clean = [] then none
  else if pyLower clean ∈ stop_words then none
  else some clean

/-- The surviving cleaned parts contributed by one raw entry
(one iteration of the loop body of main.py:350-362). -/
def entryParts (cat : RawCat) : List PyStr :=
  match catStr cat with
  | none => []
  | some s => if s = [] then [] else (splitCats s).filterMap cleanPart

/-- All surviving cleaned parts of a raw category list, in traversal order
(the loop of main.py:350-362). -/
def richParts (raw : List RawCat) : List PyStr :=
  raw.flatMap entryParts

/-- Embeds `_process_rich_categories` (main.py:345-364): explode raw
category entries on `/` runs and `--`, strip parts, drop empties and stop
words, and return the sorted deduplicated survivors. -/
def _process_rich_categories (raw : List RawCat) : List PyStr :=
  if raw = [] then [] else sortedSet (richParts raw)

example :
    _process_rich_categories
      [RawCat.str "Fiction / Thrillers / General".data,
       RawCat.obj (some "Spies--Fiction".data)] =
    ["Fiction".data, "Spies".data, "Thrillers".data] := by decide

-- ------------------------------------------------------------------
-- Genre Heuristic Tagger (src/main.py lines 328-343, 444-447, 880-882)
-- ------------------------------------------------------------------

/-- The keyword→tag dictionary of `heuristic_tagging` (main.py:329-337),
in insertion order. -/
def GENRE_KEYWORDS : List (PyStr × PyStr) :=
  [("vampire".data, "Paranormal".data), ("werewolf".data, "Paranormal".data),
   ("witch".data, "Fantasy".data),
   ("space".data, "Sci-Fi".data), ("alien".data, "Sci-Fi".data),
   ("robot".data, "Sci-Fi".data),
   ("detective".data, "Mystery".data), ("murder".data, "Mystery".data),
   ("crime".data, "Mystery".data), ("police".data, "Mystery".data),
   ("spy".data, "Thriller".data), ("espionage".data, "Thriller".data),
   ("agent".data, "Thriller".data),
   ("dragon".data, "Fantasy".data), ("magic".data, "Fantasy".data),
   ("wizard".data, "Fantasy".data), ("kingdom".data, "Fantasy".data),
   ("marriage".data, "Romance".data), ("kiss".data, "Romance".data),
   ("computer".data, "Technology".data), ("ai".data, "Technology".data)]

/-- The tags whose keyword occurs in the lowercased text
(main.py:339-342). -/
def matchedGenreTags (text : PyStr) : List PyStr :=
  GENRE_KEYWORDS.filterMap
    (fun p => if pySub p.1 (pyLower text) then some p.2 else none)

/-- Embeds `heuristic_tagging` (main.py:328-343):
`sorted(list(set(existing_tags) ∪ matched tags))`. -/
def heuristic_tagging (text : PyStr) (existing_tags : List PyStr) : List PyStr :=
  sortedSet (existing_tags ++ matchedGenreTags text)

/-- Embeds the google-mapper invocation gate (main.py:444-447): the tagger
runs only when the normalized category count is below 2, on
`description + " " + title`. -/
def googleSmartCats (rawCats : List RawCat) (desc title : PyStr) : List PyStr :=
  let smart_cats := _process_rich_categories rawCats
  if smart_cats.length < 2 then
    heuristic_tagging (desc ++ [' '] ++ title) smart_cats
  else smart_cats

/-- Embeds the `get_book_by_isbn` invocation gate (main.py:880-882): the
tagger runs when there are no archival subjects, the combined subject
count is below 3, and a description is present. -/
def isbnPathSubjects (has_loc_subjects : Bool) (combined_subjects : List PyStr)
    (description : Option PyStr) (title : PyStr) : List PyStr :=
  if has_loc_subjects = false ∧ combined_subjects.length < 3 ∧ truthy description then
    sortedSet (combined_subjects ++
      heuristic_tagging (description.getD [] ++ [' '] ++ title) combined_subjects)
  else combined_subjects

-- ------------------------------------------------------------------
-- Theorems: genre heuristic tagger gating (C8)
-- ------------------------------------------------------------------

/-- C8 counterexample: in the `get_book_by_isbn` merge path the tagger IS
invoked on a record that already carries 2 normalized subjects (the gate
there is `< 3`, not `< 2`): with subjects ["Alpha","Beta"] and a
description containing "dragon", the guessed tag "Fantasy" is added. -/
theorem genre_tagger_counterexample :
    "Fantasy".data ∈
      isbnPathSubjects false ["Alpha".data, "Beta".data]
        (some "a dragon".data) "t".data ∧
    "Fantasy".data ∉ ["Alpha".data, "Beta".data] ∧
    (["Alpha".data, "Beta".data] : List PyStr).length = 2 := by
  refine ⟨by decide, by decide, by decide⟩

/-- C8 (amended): the genre heuristic tagger only ever adds tags — its
output is exactly the union of the existing tags and the matched keyword
tags from description+title text — and in the google search mapper it is
invoked only when the normalized subject count is below 2; but in the
`get_book_by_isbn` merge path it is invoked whenever there are no archival
subjects, the combined subject count is below 3, and a description is
present, so a record carrying exactly 2 normalized subjects can still
have guessed genre tags added there. -/
theorem genre_tagger_amended (rawCats : List RawCat) (desc title text : PyStr)
    (hasLoc : Bool) (combined existing : List PyStr) (d : Option PyStr)
    (s : PyStr) :
    (2 ≤ (_process_rich_categories rawCats).length →
      googleSmartCats rawCats desc title = _process_rich_categories rawCats) ∧
    (3 ≤ combined.length ∨ hasLoc = true ∨ truthy d = false →
      isbnPathSubjects hasLoc combined d title = combined) ∧
    (s ∈ heuristic_tagging text existing ↔
      s ∈ existing ∨ s ∈ matchedGenreTags text) ∧
    (s ∈ existing → s ∈ heuristic_tagging text existing) := by
  have hmem : s ∈ heuristic_tagging text existing ↔
      s ∈ existing ∨ s ∈ matchedGenreTags text := by
    rw [heuristic_tagging, mem_sortedSet, List.mem_append]
  refine ⟨?_, ?_, hmem, fun hs => hmem.mpr (Or.inl hs)⟩
  · intro h2
    rw [googleSmartCats.eq_def]
    simp only []
    rw [if_neg (by omega)]
  · intro hdisj
    rw [isbnPathSubjects, if_neg]
    rintro ⟨hl, hc, hd⟩
    rcases hdisj with h | h | h
    · omega
    · rw [h] at hl; exact absurd hl (by simp)
    · rw [h] at hd; exact absurd hd (by simp)

theorem genre_tagger_amended_witness :
    isbnPathSubjects false ["A".data, "B".data, "C".data]
      (some "a dragon".data) "t".data = ["A".data, "B".data, "C".data] :=
  (genre_tagger_amended [] [] [] [] false ["A".data, "B".data, "C".data] []
      (some "a dragon".data) []).2.1 (Or.inl (by decide))

-- ------------------------------------------------------------------
-- Theorems: category normalizer idempotence (C9)
-- ------------------------------------------------------------------

theorem dropWhile_idem (p : α → Bool) (l : List α) :
    (l.dropWhile p).dropWhile p = l.dropWhile p := by
  induction l with
  | nil => rfl
  | cons x xs ih =>
    rw [List.dropWhile_cons]
    by_cases h : p x = true
    · rw [if_pos h]; exact ih
    · rw [if_neg h, List.dropWhile_cons, if_neg h]

theorem dropWhile_head_not (p : α → Bool) (l : List α) {x : α}
    (h : (l.dropWhile p).head? = some x) : p x = false := by
  induction l with
  | nil => simp [List.dropWhile] at h
  | cons y ys ih =>
    rw [List.dropWhile_cons] at h
    by_cases hp : p y = true
    · rw [if_pos hp] at h; exact ih h
    · rw [if_neg hp] at h
      simp only [List.head?_cons, Option.some.injEq] at h
      subst h
      exact Bool.not_eq_true _ ▸ hp

theorem dropWhile_eq_self_of_head (p : α → Bool) (l : List α)
    (h : ∀ x, l.head? = some x → p x = false) : l.dropWhile p = l := by
  cases l with
  | nil => rfl
  | cons y ys =>
    rw [List.dropWhile_cons, if_neg]
    simp [h y rfl]

theorem pyStripR_prefix (l : PyStr) : pyStripR l <+: l := by
  have h1 : l.reverse.dropWhile Char.isWhitespace <:+ l.reverse :=
    List.dropWhile_suffix _
  have h2 := List.reverse_prefix.mpr h1
  rwa [List.reverse_reverse] at h2

theorem pyStrip_infix_self (l : PyStr) : pyStrip l <:+: l := by
  have h1 : pyStrip l <+: pyStripL l := pyStripR_prefix _
  exact h1.isInfix.trans (List.dropWhile_suffix _).isInfix

theorem pyStripL_idem (l : PyStr) : pyStripL (pyStripL l) = pyStripL l :=
  dropWhile_idem _ _

theorem pyStripR_idem (l : PyStr) : pyStripR (pyStripR l) = pyStripR l := by
  unfold pyStripR
  rw [List.reverse_reverse, dropWhile_idem]

theorem pyStripL_of_stripR (x : PyStr) (hx : pyStripL x = x) :
    pyStripL (pyStripR x) = pyStripR x := by
  apply dropWhile_eq_self_of_head
  intro a ha
  obtain ⟨t, ht⟩ := pyStripR_prefix x
  have hxh : x.head? = some a := by
    rw [← ht]
    cases hsr : pyStripR x with
    | nil => rw [hsr] at ha; simp at ha
    | cons b bs =>
      rw [hsr] at ha
      simp only [List.head?_cons, Option.some.injEq] at ha
      simp [ha]
  have hdw : (x.dropWhile Char.isWhitespace).head? = some a := by
    have hx' : x.dropWhile Char.isWhitespace = x := hx
    rw [hx']
    exact hxh
  exact dropWhile_head_not _ _ hdw

theorem pyStrip_idem (s : PyStr) : pyStrip (pyStrip s) = pyStrip s := by
  unfold pyStrip
  rw [pyStripL_of_stripR (pyStripL s) (pyStripL_idem s), pyStripR_idem]

theorem dd_rev_invariant (l : List Char) :
    List.IsInfix ['-', '-'] l.reverse ↔ List.IsInfix ['-', '-'] l := by
  have hdd : (['-', '-'] : List Char) = (['-', '-'] : List Char).reverse := by decide
  conv_lhs => rw [hdd]
  exact List.reverse_infix

theorem single_prefix_iff (c : Char) (l : List Char) :
    [c] <+: l ↔ l.head? = some c := by
  cases l with
  | nil => simp
  | cons y ys =>
    rw [List.cons_prefix_cons]
    simp [eq_comm]

theorem dd_infix_cons_iff (c : Char) (l : List Char) :
    List.IsInfix ['-', '-'] (c :: l) ↔
      (c = '-' ∧ l.head? = some '-') ∨ List.IsInfix ['-', '-'] l := by
  rw [List.infix_cons_iff, List.cons_prefix_cons, single_prefix_iff]
  simp [eq_comm]

theorem splitCatsGo_parts_noSep :
    ∀ (fuel : Nat) (l cur : List Char), l.length ≤ fuel →
      '/' ∉ cur → ¬ List.IsInfix ['-', '-'] cur →
      (cur.head? = some '-' → l.head? ≠ some '-') →
      ∀ p ∈ splitCatsGo fuel l cur,
        '/' ∉ p ∧ ¬ List.IsInfix ['-', '-'] p := by
  intro fuel
  induction fuel with
  | zero =>
    intro l cur hl h1 h2 _h3 p hp
    have hnil : l = [] := List.length_eq_zero.mp (Nat.le_zero.mp hl)
    subst hnil
    simp only [splitCatsGo, List.append_nil, List.mem_singleton] at hp
    subst hp
    refine ⟨by simpa using h1, ?_⟩
    rw [dd_rev_invariant]
    exact h2
  | succ fuel ih =>
    intro l cur hl h1 h2 h3 p hp
    cases l with
    | nil =>
      rw [splitCatsGo] at hp
      simp only [List.mem_singleton] at hp
      subst hp
      refine ⟨by simpa using h1, ?_⟩
      rw [dd_rev_invariant]
      exact h2
    | cons c rest =>
      rw [splitCatsGo] at hp
      by_cases hc : c = '/'
      · rw [if_pos hc] at hp
        rcases List.mem_cons.mp hp with hp1 | hp2
        · subst hp1
          refine ⟨by simpa using h1, ?_⟩
          rw [dd_rev_invariant]
          exact h2
        · refine ih _ [] ?_ (by simp) (by simp) (by simp) p hp2
          have := (List.dropWhile_suffix (l := rest) (fun x => x = '/')).length_le
          simp only [List.length_cons] at hl
          omega
      · rw [if_neg hc] at hp
        by_cases hdd : c = '-' ∧ rest.head? = some '-'
        · rw [if_pos hdd] at hp
          rcases List.mem_cons.mp hp with hp1 | hp2
          · subst hp1
            refine ⟨by simpa using h1, ?_⟩
            rw [dd_rev_invariant]
            exact h2
          · refine ih _ [] ?_ (by simp) (by simp) (by simp) p hp2
            simp only [List.length_cons] at hl
            have := List.length_tail rest
            omega
        · rw [if_neg hdd] at hp
          refine ih rest (c :: cur) ?_ ?_ ?_ ?_ p hp
          · simp only [List.length_cons] at hl; omega
          · intro hmem
            rcases List.mem_cons.mp hmem with h | h
            · exact hc h.symm
            · exact h1 h
          · rw [dd_infix_cons_iff]
            rintro (⟨hcm, hcur⟩ | hin)
            · exact h3 hcur (by simp [hcm])
            · exact h2 hin
          · intro hhead
            simp only [List.head?_cons, Option.some.injEq] at hhead
            intro hrest
            exact hdd ⟨hhead, hrest⟩

theorem splitCatsGo_eq_single :
    ∀ (fuel : Nat) (l cur : List Char), l.length ≤ fuel →
      '/' ∉ l → ¬ List.IsInfix ['-', '-'] l →
      splitCatsGo fuel l cur = [cur.reverse ++ l] := by
  intro fuel
  induction fuel with
  | zero => intro l cur _ _ _; rfl
  | succ fuel ih =>
    intro l cur hl h1 h2
    cases l with
    | nil => simp [splitCatsGo]
    | cons c rest =>
      have hc : ¬(c = '/') := fun h => h1 (by simp [h])
      have hdd : ¬(c = '-' ∧ rest.head? = some '-') := by
        rintro ⟨hcm, hr⟩
        apply h2
        rw [dd_infix_cons_iff]
        exact Or.inl ⟨hcm, hr⟩
      rw [splitCatsGo, if_neg hc, if_neg hdd, ih rest (c :: cur) ?_ ?_ ?_]
      · simp
      · simp only [List.length_cons] at hl; omega
      · intro h; exact h1 (List.mem_cons_of_mem _ h)
      · intro h; exact h2 (List.infix_cons_iff.mpr (Or.inr h))

theorem splitCats_parts_noSep (s : PyStr) :
    ∀ p ∈ splitCats s, '/' ∉ p ∧ ¬ List.IsInfix ['-', '-'] p := by
  intro p hp
  exact splitCatsGo_parts_noSep s.length s [] (le_refl _)
    (by simp) (by simp) (by simp) p hp

theorem splitCats_self {s : PyStr} (h1 : '/' ∉ s)
    (h2 : ¬ List.IsInfix ['-', '-'] s) : splitCats s = [s] := by
  rw [splitCats, splitCatsGo_eq_single s.length s [] (le_refl _) h1 h2]
  rfl

theorem cleanPart_eq_some {p s : PyStr} :
    cleanPart p = some s ↔
      pyStrip p = s ∧ s ≠ [] ∧ pyLower s ∉ stop_words := by
  unfold cleanPart
  dsimp only
  split_ifs with h1 h2
  · constructor
    · intro h; exact absurd h (by simp)
    · rintro ⟨hs, hne, _⟩
      subst hs
      exact absurd h1 hne
  · constructor
    · intro h; exact absurd h (by simp)
    · rintro ⟨hs, _, hstop⟩
      subst hs
      exact absurd h2 hstop
  · constructor
    · intro h
      simp only [Option.some.injEq] at h
      subst h
      exact ⟨rfl, h1, h2⟩
    · rintro ⟨hs, _, _⟩
      rw [hs]

theorem entryParts_none {cat : RawCat} (hc : catStr cat = none) :
    entryParts cat = [] := by
  rw [entryParts, hc]

theorem entryParts_some {cat : RawCat} {t : PyStr} (hc : catStr cat = some t) :
    entryParts cat = if t = [] then [] else (splitCats t).filterMap cleanPart := by
  rw [entryParts, hc]

theorem mem_richParts {raw : List RawCat} {s : PyStr} :
    s ∈ richParts raw ↔ ∃ cat ∈ raw, ∃ t, catStr cat = some t ∧ t ≠ [] ∧
      ∃ p ∈ splitCats t, cleanPart p = some s := by
  unfold richParts
  rw [List.mem_flatMap]
  constructor
  · rintro ⟨cat, hcat, hs⟩
    cases hc : catStr cat with
    | none =>
      rw [entryParts_none hc] at hs
      simp at hs
    | some t =>
      rw [entryParts_some hc] at hs
      by_cases ht : t = []
      · rw [if_pos ht] at hs; simp at hs
      · rw [if_neg ht] at hs
        obtain ⟨p, hp, hcp⟩ := List.mem_filterMap.mp hs
        exact ⟨cat, hcat, t, hc, ht, p, hp, hcp⟩
  · rintro ⟨cat, hcat, t, hc, ht, p, hp, hcp⟩
    refine ⟨cat, hcat, ?_⟩
    rw [entryParts_some hc, if_neg ht]
    exact List.mem_filterMap.mpr ⟨p, hp, hcp⟩

theorem mem_process {raw : List RawCat} {s : PyStr} :
    s ∈ _process_rich_categories raw ↔ s ∈ richParts raw := by
  unfold _process_rich_categories
  split_ifs with h
  · subst h
    simp [richParts]
  · exact mem_sortedSet _ _

theorem process_mem_props {raw : List RawCat} {s : PyStr}
    (h : s ∈ _process_rich_categories raw) :
    pyStrip s = s ∧ s ≠ [] ∧ pyLower s ∉ stop_words ∧
      '/' ∉ s ∧ ¬ List.IsInfix ['-', '-'] s := by
  rw [mem_process, mem_richParts] at h
  obtain ⟨cat, _, t, _, _, p, hp, hcp⟩ := h
  obtain ⟨hs, hne, hstop⟩ := cleanPart_eq_some.mp hcp
  obtain ⟨hslash, hdd⟩ := splitCats_parts_noSep t p hp
  subst hs
  refine ⟨pyStrip_idem p, hne, hstop, ?_, ?_⟩
  · intro hmem
    exact hslash ((pyStrip_infix_self p).subset hmem)
  · intro hin
    exact hdd (hin.trans (pyStrip_infix_self p))

/-- C9: the category normalizer is idempotent as a set transformation —
feeding its output back through it yields the same set, since output parts
contain no `/` or `--` separator sequences, are already stripped,
are nonempty, and never match the stop-word set. -/
theorem process_rich_categories_idempotent (X : List RawCat) (s : PyStr) :
    s ∈ _process_rich_categories ((_process_rich_categories X).map RawCat.str) ↔
      s ∈ _process_rich_categories X := by
  constructor
  · intro h
    rw [mem_process, mem_richParts] at h
    obtain ⟨cat, hcat, t, hcs, ht, p, hp, hcp⟩ := h
    obtain ⟨y, hy, hyc⟩ := List.mem_map.mp hcat
    have hty : t = y := by
      rw [← hyc] at hcs
      simp only [catStr, Option.some.injEq] at hcs
      exact hcs.symm
    subst hty
    obtain ⟨hstr, hne, hstop, hslash, hdd⟩ := process_mem_props hy
    rw [splitCats_self hslash hdd] at hp
    simp only [List.mem_singleton] at hp
    subst hp
    obtain ⟨hs, _, _⟩ := cleanPart_eq_some.mp hcp
    rw [hstr] at hs
    subst hs
    exact hy
  · intro h
    obtain ⟨hstr, hne, hstop, hslash, hdd⟩ := process_mem_props h
    rw [mem_process, mem_richParts]
    refine ⟨RawCat.str s, List.mem_map_of_mem _ h, s, rfl, hne, s, ?_, ?_⟩
    · rw [splitCats_self hslash hdd]
      simp
    · rw [cleanPart_eq_some]
      exact ⟨hstr, hne, hstop⟩

-- ------------------------------------------------------------------
-- Release Validity Gate (src/main.py lines 60-70, 1061-1103)
-- ------------------------------------------------------------------

/-- The title blacklist `TITLE_BLACKLIST` (main.py:60-70). -/
def TITLE_BLACKLIST : List PyStr :=
  ["cloud mountain".data, "the great gatsby".data, "1984".data,
   "animal farm".data, "pride and prejudice".data, "the hobbit".data,
   "little women".data, "me before you".data, "the dead zone".data]

/-- The reprint/reissue keywords (main.py:1068). -/
def reprint_triggers : List PyStr :=
  ["anniversary edition".data, "classic".data, "reissue".data, "reprint".data]

/-- Gregorian leap year, as Python `datetime` uses. -/
def isLeap (y : Nat) : Bool :=
  (y % 4 == 0 && !(y % 100 == 0)) || y % 400 == 0

/-- Days in a month of the proleptic Gregorian calendar. -/
def daysInMonth (y m : Nat) : Nat :=
  if m = 2 then (if isLeap y then 29 else 28)
  else if m = 4 ∨ m = 6 ∨ m = 9 ∨ m = 11 then 30
  else 31

/-- Days in the months strictly before month `m` of year `y`. -/
def cumDaysBeforeMonth (y m : Nat) : Nat :=
  ((List.range (m - 1)).map (fun i => daysInMonth y (i + 1))).sum

/-- Proleptic Gregorian ordinal (Python `date.toordinal`): the value used
to compare `datetime` values day-wise; 0001-01-01 has ordinal 1. -/
def rataDie (y m d : Nat) : Int :=
  365 * ((y : Int) - 1) + (((y - 1) / 4 : Nat) : Int)
    - (((y - 1) / 100 : Nat) : Int) + (((y - 1) / 400 : Nat) : Int)
    + (cumDaysBeforeMonth y m : Int) + (d : Int)

/-- `re.search(r"(\d{4})", s)`: the first run of four consecutive digits
in `s`, as a number (main.py:1080-1082). -/
def yearOf4 : PyStr → Option Nat
  | [] => none
  | a :: rest =>
    match rest with
    | b :: c :: d :: _ =>
      if a.isDigit && b.isDigit && c.isDigit && d.isDigit then
        some (1000 * digitVal a + 100 * digitVal b + 10 * digitVal c + digitVal d)
      else yearOf4 rest
    | _ => none

/-- The month alternation of CPython strptime `%m`
(`1[0-2]|0[1-9]|[1-9]`): candidate (value, rest) pairs in alternation
order. -/
def monthAlts (l : PyStr) : List (Nat × PyStr) :=
  (match l with
   | '1' :: c :: r => if '0' ≤ c ∧ c ≤ '2' then [(10 + digitVal c, r)] else []
   | _ => []) ++
  (match l with
   | '0' :: c :: r => if '1' ≤ c ∧ c ≤ '9' then [(digitVal c, r)] else []
   | _ => []) ++
  (match l with
   | c :: r => if '1' ≤ c ∧ c ≤ '9' then [(digitVal c, r)] else []
   | _ => [])

/-- The day alternation of CPython strptime `%d`
(`3[01]|[12]\d|0[1-9]|[1-9]`): candidate (value, rest) pairs in
alternation order. -/
def dayAlts (l : PyStr) : List (Nat × PyStr) :=
  (match l with
   | '3' :: c :: r => if c = '0' ∨ c = '1' then [(30 + digitVal c, r)] else []
   | _ => []) ++
  (match l with
   | a :: c :: r =>
     if (a = '1' ∨ a = '2') ∧ c.isDigit then
       [(10 * digitVal a + digitVal c, r)]
     else []
   | _ => []) ++
  (match l with
   | '0' :: c :: r => if '1' ≤ c ∧ c ≤ '9' then [(digitVal c, r)] else []
   | _ => []) ++
  (match l with
   | c :: r => if '1' ≤ c ∧ c ≤ '9' then [(digitVal c, r)] else []
   | _ => [])

/-- The full-string regex match of `strptime(s, "%Y-%m-%d")`:
four year digits, '-', month alternation, '-', day alternation, end of
string, with regex backtracking over the alternations. -/
def regexYMD (s : PyStr) : Option (Nat × Nat × Nat) :=
  match s with
  | y1 :: y2 :: y3 :: y4 :: '-' :: rest =>
    if y1.isDigit && y2.isDigit && y3.isDigit && y4.isDigit then
      let y := 1000 * digitVal y1 + 100 * digitVal y2
        + 10 * digitVal y3 + digitVal y4
      (monthAlts rest).findSome? (fun mp =>
        match mp.2 with
        | '-' :: r2 =>
          (dayAlts r2).findSome? (fun dp =>
            if dp.2 = [] then some (y, mp.1, dp.1) else none)
        | _ => none)
    else none
  | _ => none

/-- `datetime.strptime(s, "%Y-%m-%d")` (main.py:1091): regex match, then
the `datetime` constructor validation (year at least 1, day within the
month); `none` models the ValueError. -/
def strptimeYMD (s : PyStr) : Option (Nat × Nat × Nat) :=
  match regexYMD s with
  | none => none
  | some (y, m, d) =>
    if 1 ≤ y ∧ d ≤ daysInMonth y m then some (y, m, d) else none

/-- The current wall-clock time as the gate observes it: a calendar date
plus the time of day (only its being nonzero affects the window
comparisons, since candidate dates are parsed at midnight). -/
structure PyNow where
  year : Nat
  month : Nat
  day : Nat
  usec : Nat
deriving DecidableEq

/-- Embeds `_is_valid_release` (main.py:1061-1103) with `now` explicit.
The try/except is modelled by totality: a failed year search or strptime
returns through the same branches the Python code takes (`return False`
and `pass` respectively); no other expression can raise for a valid
wall-clock `now`. -/
def _is_valid_release (now : PyNow) (book : SearchResultItem) : Bool :=
  if truthy book.cover_url = false then false
  else if truthy book.isbn_13 = false ∧ truthy book.isbn_10 = false then false
  else if book.authors = [] ∨ (book.authors.headD ⟨[]⟩).name = "Unknown".data then false
  else if pySub ['<'] (pyLower book.title) || pySub ['{'] (pyLower book.title)
      || decide (150 < (pyLower book.title).length) then false
  else if TITLE_BLACKLIST.any (fun banned => pySub banned (pyLower book.title)) then false
  else if reprint_triggers.any (fun t => pySub t (pyLower book.title)) then false
  else if truthy book.published_date = false then false
  else
    match yearOf4 (book.published_date.getD []) with
    | none => false
    | some year =>
      if (year : Int) < (now.year : Int) - 1 then false
      else if (year : Int) > (now.year : Int) + 1 then false
      else
        match strptimeYMD ((book.published_date.getD []).take 10) with
        | none => true
        | some (py, pm, pdy) =>
          if rataDie py pm pdy < rataDie now.year now.month now.day - 365 ∨
              (rataDie py pm pdy = rataDie now.year now.month now.day - 365 ∧
                0 < now.usec) then false
          else if rataDie py pm pdy > rataDie now.year now.month now.day + 90 then false
          else true

/-- The claim's rejection conditions as one flat disjunction (spec side of
the refinement): no cover, no ISBN, no/Unknown author, markup or overlong
title, blacklisted or reprint title, missing publishedDate, no parseable
4-digit year, year more than one year in the past or future, or a
parseable YYYY-MM-DD date outside the rolling window (365 days past, 90
days future, where the past cutoff inherits the current time of day). -/
def releaseRejectSpec (now : PyNow) (book : SearchResultItem) : Bool :=
  !(truthy book.cover_url) ||
  (!(truthy book.isbn_13) && !(truthy book.isbn_10)) ||
  decide (book.authors = []) ||
  decide ((book.authors.headD ⟨[]⟩).name = "Unknown".data) ||
  pySub ['<'] (pyLower book.title) || pySub ['{'] (pyLower book.title) ||
  decide (150 < (pyLower book.title).length) ||
  TITLE_BLACKLIST.any (fun banned => pySub banned (pyLower book.title)) ||
  reprint_triggers.any (fun t => pySub t (pyLower book.title)) ||
  !(truthy book.published_date) ||
  (match yearOf4 (book.published_date.getD []) with
   | none => true
   | some year =>
     decide ((year : Int) < (now.year : Int) - 1) ||
     decide ((year : Int) > (now.year : Int) + 1)) ||
  (match strptimeYMD ((book.published_date.getD []).take 10) with
   | none => false
   | some (py, pm, pdy) =>
     decide (rataDie py pm pdy < rataDie now.year now.month now.day - 365 ∨
       (rataDie py pm pdy = rataDie now.year now.month now.day - 365 ∧
         0 < now.usec)) ||
     decide (rataDie py pm pdy > rataDie now.year now.month now.day + 90))

example :
    _is_valid_release ⟨2026, 10, 12, 5⟩
      { title := "New Novel".data,
        authors := [⟨"Jane Roe".data⟩],
        isbn_10 := some "0306406152".data,
        published_date := some "2026-10-01".data,
        cover_url := some "http://c".data } = true := by decide
example :
    _is_valid_release ⟨2026, 10, 12, 5⟩
      { title := "New Novel".data,
        authors := [⟨"Jane Roe".data⟩],
        isbn_10 := some "0306406152".data,
        published_date := some "2026-10-01".data,
        cover_url := none } = false := by decide
example :
    _is_valid_release ⟨2026, 10, 12, 5⟩
      { title := "New Novel".data,
        authors := [⟨"Jane Roe".data⟩],
        isbn_10 := some "0306406152".data,
        published_date := some "2024-10-01".data,
        cover_url := some "http://c".data } = false := by decide
example :
    _is_valid_release ⟨2026, 10, 12, 5⟩
      { title := "New Novel".data,
        authors := [⟨"Jane Roe".data⟩],
        isbn_10 := some "0306406152".data,
        published_date := some "sometime soon".data,
        cover_url := some "http://c".data } = false := by decide
example :
    _is_valid_release ⟨2026, 10, 12, 5⟩
      { title := "New Novel".data,
        authors := [⟨"Jane Roe".data⟩],
        isbn_10 := some "0306406152".data,
        published_date := some "March 2026".data,
        cover_url := some "http://c".data } = true := by decide

/-- C5: the release validity gate is a total boolean function (the
embedding is total, modelling the try/except as the `none` branches of the
year and date parsers — failing closed rather than raising); for every
wall-clock `now` and every record it returns `false` exactly when one of
the claim's rejection conditions holds — no coverUrl, no ISBN, no or
"Unknown" author, markup or overlong title, blacklisted or reprint title,
missing publishedDate, no parseable 4-digit year, year more than one year
in the past or future, or a parseable YYYY-MM-DD date outside the rolling
365-days-past/90-days-future window — and `true` otherwise. -/
theorem release_gate_iff (now : PyNow) (book : SearchResultItem)
    (_hm1 : 1 ≤ now.month) (_hm2 : now.month ≤ 12)
    (_hd1 : 1 ≤ now.day) (_hd2 : now.day ≤ daysInMonth now.year now.month)
    (_hy1 : 2 ≤ now.year) (_hy2 : now.year ≤ 9998) :
    _is_valid_release now book = !(releaseRejectSpec now book) := by
  unfold _is_valid_release releaseRejectSpec
  cases hcov : truthy book.cover_url
  · simp [hcov]
  · rw [if_neg (by simp [hcov])]
    simp only [hcov, Bool.not_true, Bool.false_or]
    by_cases hisbn : truthy book.isbn_13 = false ∧ truthy book.isbn_10 = false
    · rw [if_pos hisbn]
      simp [hisbn.1, hisbn.2]
    · have hsp : (!(truthy book.isbn_13) && !(truthy book.isbn_10)) = false := by
        cases h13 : truthy book.isbn_13 <;> cases h10 : truthy book.isbn_10 <;>
          simp_all
      rw [if_neg hisbn]
      simp only [hsp, Bool.false_or]
      by_cases hauth : book.authors = [] ∨
          (book.authors.headD ⟨[]⟩).name = "Unknown".data
      · rw [if_pos hauth]
        rcases hauth with h | h
        · rw [decide_eq_true h]
          simp
        · rw [decide_eq_true h]
          simp
      · rw [if_neg hauth]
        rw [not_or] at hauth
        rw [decide_eq_false hauth.1, decide_eq_false hauth.2]
        simp only [Bool.false_or]
        cases hmk : (pySub ['<'] (pyLower book.title) ||
            pySub ['{'] (pyLower book.title) ||
            decide (150 < (pyLower book.title).length))
        swap
        · simp
        · rw [if_neg (by simp)]
          simp only [Bool.false_or]
          cases hbl : TITLE_BLACKLIST.any
              (fun banned => pySub banned (pyLower book.title))
          swap
          · simp
          · rw [if_neg (by simp)]
            simp only [Bool.false_or]
            cases hrp : reprint_triggers.any
                (fun t => pySub t (pyLower book.title))
            swap
            · simp
            · rw [if_neg (by simp)]
              simp only [Bool.false_or]
              cases hpd : truthy book.published_date
              · rw [if_pos rfl]
                simp
              · rw [if_neg (by simp)]
                simp only [Bool.not_true, Bool.false_or]
                cases hyr : yearOf4 (book.published_date.getD []) with
                | none => simp [hyr]
                | some year =>
                  simp only [hyr]
                  by_cases hold : (year : Int) < (now.year : Int) - 1
                  · rw [if_pos hold, decide_eq_true hold]
                    simp
                  · rw [if_neg hold, decide_eq_false hold]
                    simp only [Bool.false_or]
                    by_cases hnew : (year : Int) > (now.year : Int) + 1
                    · rw [if_pos hnew, decide_eq_true hnew]
                      simp
                    · rw [if_neg hnew, decide_eq_false hnew]
                      simp only [Bool.false_or]
                      cases hdt : strptimeYMD
                          ((book.published_date.getD []).take 10) with
                      | none => simp [hdt]
                      | some v =>
                        obtain ⟨py, pm, pdy⟩ := v
                        simp only [hdt]
                        by_cases hpast :
                            rataDie py pm pdy <
                              rataDie now.year now.month now.day - 365 ∨
                            (rataDie py pm pdy =
                              rataDie now.year now.month now.day - 365 ∧
                              0 < now.usec)
                        · rw [if_pos hpast, decide_eq_true hpast]
                          simp
                        · rw [if_neg hpast, decide_eq_false hpast]
                          simp only [Bool.false_or]
                          by_cases hfut :
                              rataDie py pm pdy >
                                rataDie now.year now.month now.day + 90
                          · rw [if_pos hfut, decide_eq_true hfut]
                            simp
                          · rw [if_neg hfut, decide_eq_false hfut]
                            simp

theorem release_gate_iff_witness :
    _is_valid_release ⟨2026, 10, 12, 0⟩
      { title := "Perfect Book".data,
        authors := [⟨"Jane Roe".data⟩],
        isbn_13 := some "9780306406157".data,
        published_date := some "2026-09-01".data,
        cover_url := none } =
    !(releaseRejectSpec ⟨2026, 10, 12, 0⟩
      { title := "Perfect Book".data,
        authors := [⟨"Jane Roe".data⟩],
        isbn_13 := some "9780306406157".data,
        published_date := some "2026-09-01".data,
        cover_url := none }) :=
  release_gate_iff ⟨2026, 10, 12, 0⟩ _
    (by decide) (by decide) (by decide) (by decide) (by decide) (by decide)

-- ------------------------------------------------------------------
-- Widening loop for new releases (src/main.py lines 1108-1149)
-- ------------------------------------------------------------------

/-- Embeds the best-effort cover rescue inside the loop body
(main.py:1122-1132): when the cover is falsy and an ISBN
(`book.isbn_13 or book.isbn_10`) is truthy, query the commercial catalog
(the `rescue` oracle models `get_google_data_by_isbn` plus the
thumbnail-or-smallThumbnail extraction and `ensure_https`; `none` models
both a falsy result and a raised-and-swallowed exception) and install a
truthy rescued cover. -/
def rescueCover (rescue : PyStr → Option PyStr)
    (book : SearchResultItem) : SearchResultItem :=
  if truthy book.cover_url = false then
    let isbn := if truthy book.isbn_13 then book.isbn_13 else book.isbn_10
    if truthy isbn then
      if truthy (rescue (isbn.getD [])) then
        { book with cover_url := rescue (isbn.getD []) }
      else book
    else book
  else book

/-- Embeds the `while` loop of `get_new_releases` (main.py:1115-1139) with
the external paged source as the oracle `fetch : offset → batch`
(`INTERNAL_BATCH_SIZE = 40`). The first argument is the remaining depth
(`MAX_DEPTH - depth`, initially 5); the result also carries the number of
batch fetches performed. -/
def dredge (fetch : Nat → List SearchResultItem)
    (rescue : PyStr → Option PyStr) (now : PyNow) (limit : Nat) :
    Nat → Nat → List SearchResultItem → List SearchResultItem × Nat
  | 0, _, valid => (valid, 0)
  | d + 1, offset, valid =>
    if valid.length < limit then
      if (fetch offset).isEmpty then (valid, 1)
      else
        let res := dredge fetch rescue now limit d (offset + 40)
          (valid ++ ((fetch offset).map (rescueCover rescue)).filter
            (_is_valid_release now))
        (res.1, res.2 + 1)
    else (valid, 0)

/-- The deduplication key `k = b.isbn_13 or b.isbn_10 or b.title`
(main.py:1143). -/
def dedupRelKey (b : SearchResultItem) : PyStr :=
  if truthy b.isbn_13 then b.isbn_13.getD []
  else if truthy b.isbn_10 then b.isbn_10.getD []
  else b.title

/-- The `unique_books` dict insertion (main.py:1141-1145): keep the first
record per key, in insertion order. -/
def dedupFirstByKey (key : SearchResultItem → PyStr)
    (l : List SearchResultItem) : List SearchResultItem :=
  l.foldl (fun acc b =>
    if (acc.map key).contains (key b) then acc else acc ++ [b]) []

/-- Embeds `get_new_releases` (main.py:1108-1149): run the widening loop
(`MAX_DEPTH = 5`) from `start_index`, deduplicate by
isbn13-else-isbn10-else-title, truncate to `limit`. -/
def get_new_releases (fetch : Nat → List SearchResultItem)
    (rescue : PyStr → Option PyStr) (now : PyNow)
    (limit start_index : Nat) : List SearchResultItem :=
  (dedupFirstByKey dedupRelKey
    (dredge fetch rescue now limit 5 start_index []).1).take limit

/-- A gate-passing book parameterized by title, author and isbn-10, used
for the C7 counterexample. -/
def relBook (t a i : PyStr) : SearchResultItem :=
  { title := t, authors := [⟨a⟩], isbn_10 := some i,
    published_date := some "2026-10-01".data,
    cover_url := some "http://c".data }

/-- A fetch oracle returning two valid books sharing an ISBN-10 in the
first batch and nothing afterwards. -/
def fetchC7 : Nat → List SearchResultItem := fun offset =>
  if offset = 0 then
    [relBook "X".data "A".data "0306406152".data,
     relBook "Y".data "B".data "0306406152".data]
  else []

/-- C7 counterexample: the accumulated candidates are NOT deduplicated by
the identity key of the resolver (ISBN-13 else title|author fallback) —
they are deduplicated by isbn13-else-isbn10-else-title. Two valid books
sharing an ISBN-10 but with different titles and authors have different
identity keys, yet the endpoint collapses them to one record. -/
theorem widening_loop_counterexample :
    get_new_releases fetchC7 (fun _ => none) ⟨2026, 10, 12, 0⟩ 10 0 ≠
      (dedupFirstByKey mergeKey
        (dredge fetchC7 (fun _ => none) ⟨2026, 10, 12, 0⟩ 10 5 0 []).1).take 10 ∧
    (get_new_releases fetchC7 (fun _ => none) ⟨2026, 10, 12, 0⟩ 10 0).length = 1 ∧
    ((dedupFirstByKey mergeKey
        (dredge fetchC7 (fun _ => none) ⟨2026, 10, 12, 0⟩ 10 5 0 []).1).take 10).length = 2 := by
  refine ⟨by decide, by decide, by decide⟩

/-- C7 (amended): for every target limit, the widening loop terminates
after at most MAX_DEPTH = 5 batch fetches at increasing offsets, stopping
early as soon as `limit` valid candidates are accumulated or an empty
batch is returned; the accumulated candidates are deduplicated by
ISBN-13, else ISBN-10, else raw title (not by the resolver's identity
key) keeping first occurrences, before truncating, and the returned list
contains at most `limit` records. -/
theorem widening_loop_amended (fetch : Nat → List SearchResultItem)
    (rescue : PyStr → Option PyStr) (now : PyNow)
    (limit start_index d offset : Nat) (valid : List SearchResultItem) :
    ((get_new_releases fetch rescue now limit start_index).length ≤ limit) ∧
    ((dredge fetch rescue now limit d offset valid).2 ≤ d) ∧
    (limit ≤ valid.length →
      dredge fetch rescue now limit d offset valid = (valid, 0)) ∧
    (valid.length < limit → fetch offset = [] →
      dredge fetch rescue now limit (d + 1) offset valid = (valid, 1)) ∧
    (get_new_releases fetch rescue now limit start_index =
      (dedupFirstByKey dedupRelKey
        (dredge fetch rescue now limit 5 start_index []).1).take limit) := by
  refine ⟨List.length_take_le _ _, ?_, ?_, ?_, rfl⟩
  · induction d generalizing offset valid with
    | zero => simp [dredge]
    | succ d ih =>
      rw [dredge]
      split_ifs with h1 h2
      · simp
      · simpa using Nat.add_le_add_right (ih (offset + 40) _) 1
      · simp
  · intro hge
    cases d with
    | zero => rfl
    | succ d =>
      rw [dredge, if_neg (by omega)]
  · intro hlt hempty
    rw [dredge, if_pos hlt, if_pos (by simp [hempty])]

theorem widening_loop_amended_witness :
    dredge fetchC7 (fun _ => none) ⟨2026, 10, 12, 0⟩ 10 3 7
      [relBook "X".data "A".data "0306406152".data] =
      ([relBook "X".data "A".data "0306406152".data], 1) :=
  (widening_loop_amended fetchC7 (fun _ => none) ⟨2026, 10, 12, 0⟩ 10 0 2 7
      [relBook "X".data "A".data "0306406152".data]).2.2.2.1
    (by decide) (by decide)
